import Mathlib

/-!
Verification of the Best-of-N generation-and-selection core of the
`content_gen_agent` package (product-catalog-ad-generation).

The embedding follows the Python sources:
  * `utils/evaluate_media.py`   — `EvalResult`, `calculate_evaluation_score`
  * `utils/gemini_utils.py`     — per-attempt result record of `call_gemini_image_api`
  * `func_tools/generate_image.py` — `generate_one_image`,
    `generate_images_from_storyline` (task construction, sorting, saving)
  * `func_tools/generate_audio.py` — `generate_audio` retry loop and fallback

Remote calls are nondeterministic; their outcomes are passed to the embedded
functions as explicit arguments (one outcome per issued request), exactly as
`asyncio.gather` delivers them to the Python code.  Logging calls are modelled
as an explicit list of warning messages where a claim refers to them.
-/

/-- The `Literal["Pass", "Fail"]` type used by the pydantic model. -/
inductive PF where
  | Pass
  | Fail
deriving DecidableEq, Repr

namespace evaluate_media

/-- `EvalResult` (pydantic model in `utils/evaluate_media.py`): an overall
decision, a free-text reason and six boolean sub-judgments. -/
structure EvalResult where
  decision : PF
  reason : String
  subject_adherence : PF
  attribute_matching : PF
  spatial_accuracy : PF
  style_fidelity : PF
  quality_and_coherence : PF
  no_storyboard : PF
deriving DecidableEq, Repr

/-- `calculate_evaluation_score` (`utils/evaluate_media.py`, lines 111-140).
`None` scores 0; otherwise 10 for an overall Pass plus 2 for each of the six
sub-judgments that is Pass, following the `score_mapping` dict of the source. -/
def calculate_evaluation_score : Option EvalResult → Nat
  | none => 0
  | some e =>
      (if e.decision = PF.Pass then 10 else 0)
      + (if e.subject_adherence = PF.Pass then 2 else 0)
      + (if e.attribute_matching = PF.Pass then 2 else 0)
      + (if e.spatial_accuracy = PF.Pass then 2 else 0)
      + (if e.style_fidelity = PF.Pass then 2 else 0)
      + (if e.quality_and_coherence = PF.Pass then 2 else 0)
      + (if e.no_storyboard = PF.Pass then 2 else 0)

end evaluate_media

namespace gemini_utils

/-- The `ImageGenerationResult` TypedDict of `utils/gemini_utils.py`: one
successful generation attempt (raw bytes, optional evaluation, MIME type).
`call_gemini_image_api` returns such a record or `None`; bytes are modelled as
their list of byte values. -/
structure ImageGenerationResult where
  image_bytes : List Nat
  evaluation : Option evaluate_media.EvalResult
  mime_type : String
deriving DecidableEq, Repr

end gemini_utils

namespace types

/-- An opaque `google.genai.types.Part` reference input (only identity and
presence matter to the embedded code). -/
structure Part where
  data : List Nat
deriving DecidableEq, Repr

end types

/-- A Python runtime fault escaping a function (uncaught exception). -/
inductive PyError where
  | attributeError (msg : String)
deriving DecidableEq, Repr

namespace generate_image

/-- `MAX_RETRIES` in `func_tools/generate_image.py`. -/
def MAX_RETRIES : Nat := 3

/-- The `ImageGenerationResult` TypedDict of `func_tools/generate_image.py`:
the per-unit status record returned to the caller.  `filename` and
`image_bytes` are `NotRequired`, hence optional. -/
structure ImageGenerationResult where
  status : String
  detail : String
  filename : Option String
  image_bytes : Option (List Nat)
deriving DecidableEq, Repr

/-- `successful_attempts = [res for res in results if res]`
(`generate_image.py`, line 120): a returned dict is truthy (it always carries
three keys) and `None` is falsy, so the filter keeps exactly the non-`None`
results. -/
def successful_attempts
    (results : List (Option gemini_utils.ImageGenerationResult)) :
    List gemini_utils.ImageGenerationResult :=
  results.filterMap id

/-- The key function of the `max` call on line 132:
`calculate_evaluation_score(x.get("evaluation"))`. -/
def attempt_score (x : gemini_utils.ImageGenerationResult) : Nat :=
  evaluate_media.calculate_evaluation_score x.evaluation

/-- CPython `max(iterable, key=...)`: iterate left to right, keep the current
item unless the next one has a strictly greater key; hence the first item
attaining the maximal key is returned. -/
def pyMax {α : Type} (key : α → Nat) (b : α) (rest : List α) : α :=
  rest.foldl (fun best x => if key best < key x then x else best) b

/-- `best_attempt = max(successful_attempts, key=...)`
(`generate_image.py`, lines 130-133), split into the (non-empty) head and
tail of `successful_attempts`. -/
def select_best (b : gemini_utils.ImageGenerationResult)
    (rest : List gemini_utils.ImageGenerationResult) :
    gemini_utils.ImageGenerationResult :=
  pyMax attempt_score b rest

/-- A single-quote character (code point 39), used in the f-string messages. -/
def squote : String := String.singleton (Char.ofNat 39)

/-- The warning logged on lines 137-141 when the best attempt did not pass:
`"No image passed evaluation for %s. Best score: %s"` with the prompt quoted. -/
def warn_msg (prompt : String) (score : Nat) : String :=
  "No image passed evaluation for " ++ squote ++ prompt ++ squote
    ++ ". Best score: " ++ toString score

/-- The message of the `AttributeError` CPython raises on line 135 when
`best_attempt.get("evaluation")` is `None`. -/
def attr_error_msg : String :=
  squote ++ "NoneType" ++ squote ++ " object has no attribute "
    ++ squote ++ "decision" ++ squote

/-- `generate_one_image` (`generate_image.py`, lines 88-149).  The outcomes of
the `MAX_RETRIES` concurrent `call_gemini_image_api` calls gathered on line 119
are the `api_results` argument.  The returned pair is the result record
together with the list of warnings logged; the `.error` case is the uncaught
`AttributeError` of line 135 (`best_attempt.get("evaluation").decision` with a
`None` evaluation). -/
def generate_one_image (prompt : String) (input_images : List types.Part)
    ( filename_prefix : String)
    (api_results : List (Option gemini_utils.ImageGenerationResult)) :
    Except PyError (ImageGenerationResult × List String) :=
  if input_images.isEmpty then
    .ok ({ status := "failed"
           detail := "Input image(s) are required for image generation."
           filename := none
           image_bytes := none }, [])
  else
    match successful_attempts api_results with
    | [] =>
        .ok ({ status := "failed"
               detail := "All image generation attempts failed for prompt: "
                 ++ squote ++ prompt ++ squote ++ "."
               filename := none
               image_bytes := none }, [])
    | b :: rest =>
        let best := select_best b rest
        match best.evaluation with
        | none => .error (PyError.attributeError attr_error_msg)
        | some ev =>
            let warnings :=
              if ev.decision ≠ PF.Pass then
                [warn_msg prompt
                  (evaluate_media.calculate_evaluation_score (some ev))]
              else []
            .ok ({ status := "success"
                   detail := "Image generated successfully for "
                     ++ filename_prefix ++ ".png."
                   filename := some ( filename_prefix ++ ".png")
                   image_bytes := some best.image_bytes }, warnings)

/-- The sort key of `results.sort(key=lambda r: r.get("filename", ""))`
(`generate_image.py`, line 330): the filename when present, else `""`. -/
def sortKey (r : ImageGenerationResult) : String :=
  r.filename.getD ""

/-- The comparison the Python stable sort orders by. -/
def sort_le (a b : ImageGenerationResult) : Bool :=
  decide (sortKey a ≤ sortKey b)

/-- `results.sort(key=...)` — Python `list.sort` is a stable merge sort. -/
def sort_results (l : List ImageGenerationResult) :
    List ImageGenerationResult :=
  l.mergeSort sort_le

/-- The in-place update `_save_generated_images` performs on one record
(`generate_image.py`, lines 157-170): for a success record with (truthy, i.e.
non-empty) image bytes, the artifact is saved, `detail` is rewritten to
`"Image stored as {filename}."` and `image_bytes` is deleted; other records
are untouched.  (The source indexes `result["filename"]`, present on every
success record produced by `generate_one_image`.) -/
def save_transform (r : ImageGenerationResult) : ImageGenerationResult :=
  match r.image_bytes with
  | some bs =>
      if r.status = "success" ∧ bs ≠ [] then
        { r with
          detail := "Image stored as " ++ r.filename.getD "" ++ "."
          image_bytes := none }
      else r
  | none => r

/-- One logical generation unit of `generate_images_from_storyline`:
the scene number, the scene prompt, and whether it is the logo scene. -/
def Task : Type := Int × String × Bool

/-- The task-construction loop of `generate_images_from_storyline`
(`generate_image.py`, lines 312-327): iterate over `scene_numbers` (or
`range(len(prompts))` when `None`) with enumeration index `i`, skip indices
with no prompt (`if not 0 <= i < len(prompts): continue`), and mark the logo
scene (`logo_prompt_present and i == len(prompts) - 1`). -/
def build_tasks (prompts : List String) (scene_numbers : Option (List Int))
    (logo_prompt_present : Bool) : List Task :=
  let scenes : List Int :=
    match scene_numbers with
    | some ns => ns
    | none => (List.range prompts.length).map Int.ofNat
  scenes.enum.filterMap (fun p =>
    if h : p.1 < prompts.length then
      some (p.2, prompts.get ⟨p.1, h⟩,
        logo_prompt_present && decide (p.1 = prompts.length - 1))
    else none)

/-- The result-assembly tail of `generate_images_from_storyline`
(`generate_image.py`, lines 312-334), abstracted over the awaited outcome
`gen` of each unit's `_create_image_generation_task` /
`generate_one_image` call: gather one record per task, sort the records by
filename, then apply the saving update to each. -/
def generate_images_from_storyline_core (gen : Task → ImageGenerationResult)
    (prompts : List String) (scene_numbers : Option (List Int))
    (logo_prompt_present : Bool) : List ImageGenerationResult :=
  (sort_results
      ((build_tasks prompts scene_numbers logo_prompt_present).map gen)).map
    save_transform

end generate_image

namespace generate_audio

/-- `MAX_RETRIES` in `func_tools/generate_audio.py`. -/
def MAX_RETRIES : Nat := 3

/-- `STATIC_AUDIO_FALLBACK` in `func_tools/generate_audio.py`. -/
def STATIC_AUDIO_FALLBACK : String := "static/audio/audio_track_1.mp3"

/-- The `{"name": ...}` dict `generate_audio` returns. -/
structure AudioRecord where
  name : String
deriving DecidableEq, Repr

/-- The outcome of one HTTP POST to the Lyria predict endpoint, as observed by
one iteration of the retry loop: either a response with a status code (and,
for 200 responses, the optional `bytesBase64Encoded` payload — `none` models a
malformed response missing `predictions[0]["bytesBase64Encoded"]`), or a
raised client-side exception. -/
inductive HttpAttempt where
  | response (status : Nat) (bytesB64 : Option String)
  | raised (msg : String)
deriving DecidableEq, Repr

/-- The `for attempt in range(MAX_RETRIES)` loop of `generate_audio`
(`generate_audio.py`, lines 91-168).  Returns the fresh artifact filename on
success, `none` when the loop ends without returning (break on a
non-retryable status, or exhaustion of the attempts; both fall through to the
static fallback).  A 200 response missing the payload raises `ValueError`,
which the `except` clause catches, so the loop simply continues; 429/500/503
are retried after a backoff sleep; any other status breaks.  `ts` is
`int(time.time())` at the success point. -/
def lyria_loop (ts : Nat) : Nat → List HttpAttempt → Option String
  | 0, _ => none
  | _ + 1, [] => none
  | n + 1, a :: rest =>
      match a with
      | .response s ob =>
          if s = 200 then
            match ob with
            | some _ => some ("audio_" ++ toString ts ++ ".wav")
            | none => lyria_loop ts n rest
          else if s = 429 ∨ s = 500 ∨ s = 503 then lyria_loop ts n rest
          else none
      | .raised _ => lyria_loop ts n rest

/-- `generate_audio` (`generate_audio.py`, lines 45-171).  `project_id` is
`os.environ.get("GOOGLE_CLOUD_PROJECT")` (`none` = unset; the empty string is
also falsy in `if not project_id`), `creds_ok` is whether
`google.auth.default()`/`refresh` succeeded, and `attempts` are the HTTP
outcomes the environment delivers to the successive loop iterations. -/
def generate_audio (project_id : Option String) (creds_ok : Bool) (ts : Nat)
    (attempts : List HttpAttempt) : Option AudioRecord :=
  match project_id with
  | none => some ⟨STATIC_AUDIO_FALLBACK⟩
  | some p =>
      if p = "" then some ⟨STATIC_AUDIO_FALLBACK⟩
      else if creds_ok = false then some ⟨STATIC_AUDIO_FALLBACK⟩
      else
        match lyria_loop ts MAX_RETRIES attempts with
        | some f => some ⟨f⟩
        | none => some ⟨STATIC_AUDIO_FALLBACK⟩

end generate_audio

/-! ## Sample values used by witnesses -/

/-- An evaluation with every judgment Pass (score 22). -/
def evalAllPass : evaluate_media.EvalResult :=
  { decision := PF.Pass, reason := "", subject_adherence := PF.Pass
    attribute_matching := PF.Pass, spatial_accuracy := PF.Pass
    style_fidelity := PF.Pass, quality_and_coherence := PF.Pass
    no_storyboard := PF.Pass }

/-- An evaluation with every judgment Fail (score 0). -/
def evalAllFail : evaluate_media.EvalResult :=
  { decision := PF.Fail, reason := "wrong color", subject_adherence := PF.Fail
    attribute_matching := PF.Fail, spatial_accuracy := PF.Fail
    style_fidelity := PF.Fail, quality_and_coherence := PF.Fail
    no_storyboard := PF.Fail }

/-- A successful attempt whose evaluation passed everything. -/
def attPass : gemini_utils.ImageGenerationResult :=
  { image_bytes := [1, 2], evaluation := some evalAllPass
    mime_type := "image/png" }

/-- A successful attempt whose evaluation failed everything. -/
def attFail : gemini_utils.ImageGenerationResult :=
  { image_bytes := [3], evaluation := some evalAllFail
    mime_type := "image/png" }

/-- A second all-failing attempt with different bytes (same score as
`attFail`). -/
def attFail2 : gemini_utils.ImageGenerationResult :=
  { image_bytes := [4], evaluation := some evalAllFail
    mime_type := "image/png" }

/-- A successful attempt whose evaluator call failed (no evaluation). -/
def attNoEval : gemini_utils.ImageGenerationResult :=
  { image_bytes := [7], evaluation := none, mime_type := "image/png" }

/-! ## Helper lemmas about the CPython `max` embedding -/

/-- `pyMax` returns an element of the list it maximises over. -/
theorem pyMax_mem {α : Type} (key : α → Nat) :
    ∀ (rest : List α) (b : α), generate_image.pyMax key b rest ∈ b :: rest := by
  intro rest
  induction rest with
  | nil =>
      intro b
      simp [generate_image.pyMax]
  | cons y ys ih =>
      intro b
      show generate_image.pyMax key (if key b < key y then y else b) ys
        ∈ b :: y :: ys
      by_cases hk : key b < key y
      · rw [if_pos hk]
        exact List.mem_cons_of_mem _ (ih y)
      · rw [if_neg hk]
        rcases List.mem_cons.mp (ih b) with h1 | h1
        · rw [h1]
          exact List.mem_cons_self _ _
        · exact List.mem_cons_of_mem _ (List.mem_cons_of_mem _ h1)

/-- Every element's key is bounded by the key of the `pyMax` result. -/
theorem le_pyMax {α : Type} (key : α → Nat) :
    ∀ (rest : List α) (b x : α), x ∈ b :: rest →
      key x ≤ key (generate_image.pyMax key b rest) := by
  intro rest
  induction rest with
  | nil =>
      intro b x hx
      rcases List.mem_cons.mp hx with h | h
      · subst h; simp [generate_image.pyMax]
      · simp at h
  | cons y ys ih =>
      intro b x hx
      show key x ≤ key (generate_image.pyMax key
        (if key b < key y then y else b) ys)
      have hbb : key b ≤ key (if key b < key y then y else b) := by
        split <;> omega
      have hyb : key y ≤ key (if key b < key y then y else b) := by
        split <;> omega
      have hmax := ih (if key b < key y then y else b)
        (if key b < key y then y else b) (List.mem_cons_self _ _)
      rcases List.mem_cons.mp hx with h | h
      · subst h; omega
      rcases List.mem_cons.mp h with h1 | h1
      · subst h1; omega
      · exact ih _ _ (List.mem_cons_of_mem _ h1)

/-- The score of a present evaluation is the weighted sum of indicator
values: 10 for the overall decision, 2 per passing sub-judgment. -/
theorem score_weighted_formula (e : evaluate_media.EvalResult) :
    evaluate_media.calculate_evaluation_score (some e)
      = 10 * (if e.decision = PF.Pass then 1 else 0)
        + 2 * ((if e.subject_adherence = PF.Pass then 1 else 0)
          + (if e.attribute_matching = PF.Pass then 1 else 0)
          + (if e.spatial_accuracy = PF.Pass then 1 else 0)
          + (if e.style_fidelity = PF.Pass then 1 else 0)
          + (if e.quality_and_coherence = PF.Pass then 1 else 0)
          + (if e.no_storyboard = PF.Pass then 1 else 0)) := by
  rcases e with ⟨d, r, s1, s2, s3, s4, s5, s6⟩
  cases d <;> cases s1 <;> cases s2 <;> cases s3 <;> cases s4 <;> cases s5
    <;> cases s6 <;> rfl

/-! ## Claims -/

/-- C1: for every non-empty list of successful generation attempts, the
Selector (the `max` over `calculate_evaluation_score` applied in
`generate_one_image`) returns an attempt from the list whose score is greater
than or equal to the score of every other attempt in the list. -/
theorem C1_selector_returns_scored_max
    (b : gemini_utils.ImageGenerationResult)
    (rest : List gemini_utils.ImageGenerationResult) :
    generate_image.select_best b rest ∈ b :: rest ∧
    ∀ x ∈ b :: rest,
      generate_image.attempt_score x
        ≤ generate_image.attempt_score (generate_image.select_best b rest) :=
  ⟨pyMax_mem _ _ _, fun _ hx => le_pyMax _ _ _ _ hx⟩

/-- Witness for C1 on the concrete two-attempt list `[attFail, attPass]`. -/
theorem C1_selector_returns_scored_max_witness :
    generate_image.select_best attFail [attPass] ∈ [attFail, attPass] ∧
    generate_image.attempt_score attPass
      ≤ generate_image.attempt_score
          (generate_image.select_best attFail [attPass]) :=
  ⟨(C1_selector_returns_scored_max attFail [attPass]).1,
   (C1_selector_returns_scored_max attFail [attPass]).2 attPass (by simp)⟩

/-- C2: `calculate_evaluation_score` is a pure deterministic function equal to
the fixed weighted sum (10 for an overall Pass plus 2 per passing
sub-judgment), its value always lies in [0, 22], and equal inputs yield equal
scores. -/
theorem C2_score_is_pure_weighted_sum :
    (∀ e : evaluate_media.EvalResult,
        evaluate_media.calculate_evaluation_score (some e)
          = 10 * (if e.decision = PF.Pass then 1 else 0)
            + 2 * ((if e.subject_adherence = PF.Pass then 1 else 0)
              + (if e.attribute_matching = PF.Pass then 1 else 0)
              + (if e.spatial_accuracy = PF.Pass then 1 else 0)
              + (if e.style_fidelity = PF.Pass then 1 else 0)
              + (if e.quality_and_coherence = PF.Pass then 1 else 0)
              + (if e.no_storyboard = PF.Pass then 1 else 0)))
    ∧ (∀ oe : Option evaluate_media.EvalResult,
        evaluate_media.calculate_evaluation_score oe ≤ 22)
    ∧ (∀ a b : Option evaluate_media.EvalResult, a = b →
        evaluate_media.calculate_evaluation_score a
          = evaluate_media.calculate_evaluation_score b) := by
  refine ⟨score_weighted_formula, ?_, ?_⟩
  · intro oe
    rcases oe with _ | e
    · simp [evaluate_media.calculate_evaluation_score]
    · rw [score_weighted_formula e]
      have h1 : (if e.decision = PF.Pass then (1 : Nat) else 0) ≤ 1 := by
        split <;> omega
      have h2 : (if e.subject_adherence = PF.Pass then (1 : Nat) else 0)
          ≤ 1 := by split <;> omega
      have h3 : (if e.attribute_matching = PF.Pass then (1 : Nat) else 0)
          ≤ 1 := by split <;> omega
      have h4 : (if e.spatial_accuracy = PF.Pass then (1 : Nat) else 0)
          ≤ 1 := by split <;> omega
      have h5 : (if e.style_fidelity = PF.Pass then (1 : Nat) else 0)
          ≤ 1 := by split <;> omega
      have h6 : (if e.quality_and_coherence = PF.Pass then (1 : Nat) else 0)
          ≤ 1 := by split <;> omega
      have h7 : (if e.no_storyboard = PF.Pass then (1 : Nat) else 0)
          ≤ 1 := by split <;> omega
      omega
  · intro a b h
    exact congrArg _ h

/-- Witness for C2 at the all-Pass evaluation. -/
theorem C2_score_is_pure_weighted_sum_witness :
    evaluate_media.calculate_evaluation_score (some evalAllPass) ≤ 22 ∧
    evaluate_media.calculate_evaluation_score (some evalAllPass)
      = evaluate_media.calculate_evaluation_score (some evalAllPass) :=
  ⟨C2_score_is_pure_weighted_sum.2.1 (some evalAllPass),
   C2_score_is_pure_weighted_sum.2.2 _ _ rfl⟩

/-- C3: for every non-empty batch of successful attempts whose evaluations are
all present with overall decision Fail, `generate_one_image` still returns a
success record carrying the bytes of the highest-scoring attempt, and the only
additional observable effect is the logged warning. -/
theorem C3_fail_open_selection (prompt fp : String)
    (input_images : List types.Part)
    (api_results : List (Option gemini_utils.ImageGenerationResult))
    (b : gemini_utils.ImageGenerationResult)
    (rest : List gemini_utils.ImageGenerationResult)
    (h1 : input_images.isEmpty = false)
    (hs : generate_image.successful_attempts api_results = b :: rest)
    (hall : ∀ x ∈ b :: rest, ∃ e, x.evaluation = some e
      ∧ e.decision = PF.Fail) :
    generate_image.generate_one_image prompt input_images fp api_results =
      .ok ({ status := "success"
             detail := "Image generated successfully for " ++ fp ++ ".png."
             filename := some (fp ++ ".png")
             image_bytes :=
               some (generate_image.select_best b rest).image_bytes },
           [generate_image.warn_msg prompt
             (generate_image.attempt_score
               (generate_image.select_best b rest))]) := by
  obtain ⟨ev, hev, hdec⟩ :=
    hall _ (pyMax_mem generate_image.attempt_score rest b)
  have hsel : generate_image.select_best b rest
      = generate_image.pyMax generate_image.attempt_score b rest := rfl
  unfold generate_image.generate_one_image
  rw [hs]
  simp only [h1, Bool.false_eq_true, if_false, generate_image.attempt_score,
    hsel, hev, hdec]
  simp

/-- Witness for C3: a single all-failing attempt. -/
theorem C3_fail_open_selection_witness :
    generate_image.generate_one_image "red shoe" [⟨[0]⟩] "1_"
        [some attFail] =
      .ok ({ status := "success"
             detail := "Image generated successfully for 1_.png."
             filename := some ("1_.png")
             image_bytes :=
               some (generate_image.select_best attFail []).image_bytes },
           [generate_image.warn_msg "red shoe"
             (generate_image.attempt_score
               (generate_image.select_best attFail []))]) :=
  C3_fail_open_selection "red shoe" "1_" [⟨[0]⟩] [some attFail] attFail []
    rfl rfl
    (by
      intro x hx
      simp only [List.mem_singleton] at hx
      exact ⟨evalAllFail, by rw [hx]; rfl, rfl⟩)

/-- C4: the code evaluated at the failing input.  A batch whose only
successful attempt has no evaluation (the Evaluator failed) makes
`generate_one_image` raise `AttributeError` on line 135
(`best_attempt.get("evaluation").decision`) instead of returning the attempt
as a success record; the scoring half of the claim does hold
(`calculate_evaluation_score(None) == 0`). -/
theorem C4_unscored_sole_survivor_crashes :
    generate_image.generate_one_image "red shoe" [⟨[0]⟩] "1_"
        [some attNoEval] =
      .error (PyError.attributeError generate_image.attr_error_msg)
    ∧ evaluate_media.calculate_evaluation_score none = 0 :=
  ⟨rfl, rfl⟩

/-- C5: when the fan-out yields zero successful attempts,
`generate_one_image` returns the batch-level failure record (status
`"failed"`), and the Selector is never reached (in the embedding the
selection branch structurally requires a non-empty list of successes). -/
theorem C5_empty_batch_failure (prompt fp : String)
    (input_images : List types.Part)
    (api_results : List (Option gemini_utils.ImageGenerationResult))
    (h1 : input_images.isEmpty = false)
    (h2 : generate_image.successful_attempts api_results = []) :
    generate_image.generate_one_image prompt input_images fp api_results =
      .ok ({ status := "failed"
             detail := "All image generation attempts failed for prompt: "
               ++ generate_image.squote ++ prompt ++ generate_image.squote
               ++ "."
             filename := none
             image_bytes := none }, []) := by
  unfold generate_image.generate_one_image
  rw [h2]
  simp [h1]

/-- Witness for C5: three failed attempts. -/
theorem C5_empty_batch_failure_witness :
    generate_image.generate_one_image "red shoe" [⟨[0]⟩] "1_"
        [none, none, none] =
      .ok ({ status := "failed"
             detail := "All image generation attempts failed for prompt: "
               ++ generate_image.squote ++ "red shoe"
               ++ generate_image.squote ++ "."
             filename := none
             image_bytes := none }, []) :=
  C5_empty_batch_failure "red shoe" "1_" [⟨[0]⟩] [none, none, none] rfl rfl

/-- Helper: the successes kept by the fan-out filter plus the dropped `None`
results account for the whole gathered list. -/
theorem length_filterMap_add_countP_none {α : Type}
    (l : List (Option α)) :
    (l.filterMap id).length + l.countP (fun r => r.isNone) = l.length := by
  induction l with
  | nil => simp
  | cons a l ih =>
      cases a <;> simp [List.countP_cons, ih] <;> omega

/-- C6: a fan-out batch in which exactly one gathered attempt failed yields
exactly (length - 1) successful attempts, and every successful attempt of the
batch is kept in the result set. -/
theorem C6_isolate_and_continue
    (results : List (Option gemini_utils.ImageGenerationResult))
    (h : results.countP (fun r => r.isNone) = 1) :
    (generate_image.successful_attempts results).length
      = results.length - 1 ∧
    ∀ a, some a ∈ results → a ∈ generate_image.successful_attempts results := by
  constructor
  · have hl := length_filterMap_add_countP_none results
    unfold generate_image.successful_attempts
    omega
  · intro a ha
    exact List.mem_filterMap.mpr ⟨some a, ha, rfl⟩

/-- Witness for C6 on a gathered batch of `MAX_RETRIES = 3` outcomes with one
failure. -/
theorem C6_isolate_and_continue_witness :
    (generate_image.successful_attempts
        [some attPass, none, some attFail]).length
      = [some attPass, none, some attFail].length - 1 ∧
    attPass ∈ generate_image.successful_attempts
      [some attPass, none, some attFail] :=
  ⟨(C6_isolate_and_continue [some attPass, none, some attFail]
      (by decide)).1,
   (C6_isolate_and_continue [some attPass, none, some attFail]
      (by decide)).2 attPass (by simp)⟩

/-- C7: with an empty list of reference input images, `generate_one_image`
fails fast, returning the structured failed record naming the missing input —
for every batch of API outcomes, which are never consulted — and raises no
fault. -/
theorem C7_missing_input_fails_fast (prompt fp : String)
    (api_results : List (Option gemini_utils.ImageGenerationResult)) :
    generate_image.generate_one_image prompt [] fp api_results =
      .ok ({ status := "failed"
             detail := "Input image(s) are required for image generation."
             filename := none
             image_bytes := none }, []) := rfl

/-- Helper: the saving update never touches a record's filename, hence its
sort key. -/
theorem sortKey_save_transform (r : generate_image.ImageGenerationResult) :
    generate_image.sortKey (generate_image.save_transform r)
      = generate_image.sortKey r := by
  cases h : r.image_bytes <;>
    simp only [generate_image.save_transform, generate_image.sortKey, h]
  split <;> rfl

/-- Helper: the record comparison used by the sort is transitive. -/
theorem sort_le_trans (a b c : generate_image.ImageGenerationResult)
    (hab : generate_image.sort_le a b) (hbc : generate_image.sort_le b c) :
    generate_image.sort_le a c := by
  simp only [generate_image.sort_le, decide_eq_true_eq] at *
  exact le_trans hab hbc

/-- Helper: the record comparison used by the sort is total. -/
theorem sort_le_total (a b : generate_image.ImageGenerationResult) :
    generate_image.sort_le a b || generate_image.sort_le b a := by
  simp only [generate_image.sort_le, Bool.or_eq_true, decide_eq_true_eq]
  exact le_total _ _

/-- C8: the record list `generate_images_from_storyline` returns is ordered
by filename (sort key: the record's filename, `""` when absent), and holds
exactly one record — the saved outcome — per generation unit built from the
request. -/
theorem C8_records_ordered_by_filename
    (gen : generate_image.Task → generate_image.ImageGenerationResult)
    (prompts : List String) (scene_numbers : Option (List Int))
    (logo_prompt_present : Bool) :
    (generate_image.generate_images_from_storyline_core gen prompts
        scene_numbers logo_prompt_present).Pairwise
      (fun a b => generate_image.sortKey a ≤ generate_image.sortKey b)
    ∧ (generate_image.generate_images_from_storyline_core gen prompts
        scene_numbers logo_prompt_present).Perm
      ((generate_image.build_tasks prompts scene_numbers
          logo_prompt_present).map
        (fun t => generate_image.save_transform (gen t))) := by
  constructor
  · have hsorted :=
      List.sorted_mergeSort sort_le_trans sort_le_total
        ((generate_image.build_tasks prompts scene_numbers
            logo_prompt_present).map gen)
    unfold generate_image.generate_images_from_storyline_core
      generate_image.sort_results
    refine List.Pairwise.map _ ?_ hsorted
    intro a b hab
    rw [sortKey_save_transform, sortKey_save_transform]
    exact (decide_eq_true_eq).mp hab
  · unfold generate_image.generate_images_from_storyline_core
      generate_image.sort_results
    have hperm :=
      (List.mergeSort_perm
        ((generate_image.build_tasks prompts scene_numbers
            logo_prompt_present).map gen) generate_image.sort_le).map
        generate_image.save_transform
    simpa [List.map_map, Function.comp] using hperm

/-- C9, counterexample: with two distinct attempts tying on the maximum
score, permuting the batch changes the attempt CPython's `max` (first maximal
element) returns, so the Selector is not order-independent as claimed. -/
theorem C9_counterexample_tie_is_order_dependent :
    List.Perm [attFail, attFail2] [attFail2, attFail]
    ∧ generate_image.attempt_score attFail
      = generate_image.attempt_score attFail2
    ∧ generate_image.select_best attFail [attFail2]
      ≠ generate_image.select_best attFail2 [attFail] := by
  refine ⟨List.Perm.swap _ _ _, rfl, ?_⟩
  decide

/-- C9, amended: the score of the Selector's result is order-independent
(equal for every permutation of the batch), and the returned attempt itself is
the same whenever no two distinct attempts tie on the maximum score. -/
theorem C9_amended_score_order_independent
    (b b2 : gemini_utils.ImageGenerationResult)
    (rest rest2 : List gemini_utils.ImageGenerationResult)
    (hperm : List.Perm (b :: rest) (b2 :: rest2)) :
    generate_image.attempt_score (generate_image.select_best b rest)
      = generate_image.attempt_score (generate_image.select_best b2 rest2)
    ∧ ((∀ x ∈ b :: rest, ∀ y ∈ b :: rest,
          generate_image.attempt_score x
            = generate_image.attempt_score
                (generate_image.select_best b rest) →
          generate_image.attempt_score y
            = generate_image.attempt_score
                (generate_image.select_best b rest) →
          x = y) →
        generate_image.select_best b rest
          = generate_image.select_best b2 rest2) := by
  have m1 : generate_image.select_best b rest ∈ b :: rest :=
    pyMax_mem generate_image.attempt_score rest b
  have m2 : generate_image.select_best b2 rest2 ∈ b2 :: rest2 :=
    pyMax_mem generate_image.attempt_score rest2 b2
  have m2m : generate_image.select_best b2 rest2 ∈ b :: rest :=
    hperm.mem_iff.mpr m2
  have m1m : generate_image.select_best b rest ∈ b2 :: rest2 :=
    hperm.mem_iff.mp m1
  have hscore :
      generate_image.attempt_score (generate_image.select_best b rest)
        = generate_image.attempt_score (generate_image.select_best b2 rest2) :=
    le_antisymm (le_pyMax generate_image.attempt_score rest2 b2 _ m1m)
      (le_pyMax generate_image.attempt_score rest b _ m2m)
  exact ⟨hscore, fun huniq => huniq _ m1 _ m2m rfl hscore.symm⟩

/-- Witness for the amended C9 on a two-attempt batch with distinct scores
and its swap. -/
theorem C9_amended_score_order_independent_witness :
    generate_image.attempt_score (generate_image.select_best attFail [attPass])
      = generate_image.attempt_score
          (generate_image.select_best attPass [attFail])
    ∧ generate_image.select_best attFail [attPass]
      = generate_image.select_best attPass [attFail] :=
  ⟨(C9_amended_score_order_independent attFail attPass [attPass] [attFail]
      (List.Perm.swap _ _ _)).1,
   (C9_amended_score_order_independent attFail attPass [attPass] [attFail]
      (List.Perm.swap _ _ _)).2 (by decide)⟩

/-- Helper: one pass of the Lyria retry loop either falls through to the
fallback (`none`) or returns the fresh timestamped wav filename. -/
theorem lyria_loop_spec (ts : Nat) :
    ∀ (n : Nat) (l : List generate_audio.HttpAttempt),
      generate_audio.lyria_loop ts n l = none ∨
      generate_audio.lyria_loop ts n l
        = some ("audio_" ++ toString ts ++ ".wav") := by
  intro n
  induction n with
  | zero =>
      intro l
      left
      rfl
  | succ n ih =>
      intro l
      cases l with
      | nil =>
          left
          rfl
      | cons a rest =>
          cases a with
          | response s ob =>
              by_cases hs : s = 200
              · subst hs
                cases ob with
                | none => simpa [generate_audio.lyria_loop] using ih rest
                | some v =>
                    right
                    simp [generate_audio.lyria_loop]
              · by_cases ht : s = 429 ∨ s = 500 ∨ s = 503
                · simpa [generate_audio.lyria_loop, hs, ht] using ih rest
                · left
                  simp [generate_audio.lyria_loop, hs, ht]
          | raised m => simpa [generate_audio.lyria_loop] using ih rest

/-- C10: `generate_audio` never returns `None` despite its `Optional`
annotation: every run returns a record whose name is the static fallback or
the fresh timestamped wav filename; a missing project env var and a
credential failure return exactly the static fallback. -/
theorem C10_generate_audio_never_none (project_id : Option String)
    (creds_ok : Bool) (ts : Nat)
    (attempts : List generate_audio.HttpAttempt) :
    (∃ r, generate_audio.generate_audio project_id creds_ok ts attempts
        = some r
      ∧ (r.name = generate_audio.STATIC_AUDIO_FALLBACK
        ∨ r.name = "audio_" ++ toString ts ++ ".wav"))
    ∧ generate_audio.generate_audio none creds_ok ts attempts
        = some ⟨generate_audio.STATIC_AUDIO_FALLBACK⟩
    ∧ generate_audio.generate_audio (some "my-project") false ts attempts
        = some ⟨generate_audio.STATIC_AUDIO_FALLBACK⟩ := by
  refine ⟨?_, rfl, rfl⟩
  rcases project_id with _ | p
  · exact ⟨⟨generate_audio.STATIC_AUDIO_FALLBACK⟩, rfl, Or.inl rfl⟩
  · by_cases hp : p = ""
    · refine ⟨⟨generate_audio.STATIC_AUDIO_FALLBACK⟩, ?_, Or.inl rfl⟩
      simp [generate_audio.generate_audio, hp]
    · by_cases hc : creds_ok = false
      · refine ⟨⟨generate_audio.STATIC_AUDIO_FALLBACK⟩, ?_, Or.inl rfl⟩
        simp [generate_audio.generate_audio, hp, hc]
      · rcases lyria_loop_spec ts generate_audio.MAX_RETRIES attempts
          with h | h
        · refine ⟨⟨generate_audio.STATIC_AUDIO_FALLBACK⟩, ?_, Or.inl rfl⟩
          simp [generate_audio.generate_audio, hp, hc, h]
        · refine ⟨⟨"audio_" ++ toString ts ++ ".wav"⟩, ?_, Or.inr rfl⟩
          simp [generate_audio.generate_audio, hp, hc, h]
